import Mathlib

/-!
Formal model of the `SamAnton-J/demo` asynchronous document-processing
backend (`app/tasks.py`, `app/main.py`, `app/celery_worker.py`).

The handler and endpoint bodies are translated statement by statement from
the Python source. External collaborators (HTTP fetch, PDF text extraction,
the chat-template tokenizer, the hosted LLM endpoint, JSON/pydantic
parsing, the sentence-transformer encoder, the Qdrant vector store, and
the Celery worker loop) are modelled at their interface boundary: each
fallible external call is an explicit parameter returning `Except String _`
where the Python call can raise an exception.
-/

namespace Demo

/-! ### UUID version 5 (`uuid.uuid5`), as used for the Qdrant point id

`create_embedding_task` derives the point id with
`str(uuid.uuid5(uuid.NAMESPACE_DNS, document_id))` (tasks.py line 127).
`uuid.uuid5` is the RFC 4122 name-based UUID: the SHA-1 digest of the
namespace bytes followed by the UTF-8 bytes of the name, truncated to
16 bytes, with the version and variant bits forced. We implement the
full algorithm; bytes are `Nat` below 256 and SHA-1 words are `Nat`
below `2 ^ 32` with explicit reduction. -/

/-- The SHA-1 word modulus `2 ^ 32`. -/
def w32 : Nat := 4294967296

/-- Left rotation of a 32-bit word represented as a `Nat` below `2 ^ 32`. -/
def rotl (n x : Nat) : Nat := ((x <<< n) ||| (x >>> (32 - n))) % w32

/-- The SHA-1 round function for round `t`. -/
def sha1F (t b c d : Nat) : Nat :=
  if t < 20 then (b &&& c) ||| ((0xFFFFFFFF ^^^ b) &&& d)
  else if t < 40 then b ^^^ c ^^^ d
  else if t < 60 then (b &&& c) ||| (b &&& d) ||| (c &&& d)
  else b ^^^ c ^^^ d

/-- The SHA-1 round constant for round `t`. -/
def sha1K (t : Nat) : Nat :=
  if t < 20 then 0x5A827999
  else if t < 40 then 0x6ED9EBA1
  else if t < 60 then 0x8F1BBCDC
  else 0xCA62C1D6

/-- Group a byte list into big-endian 32-bit words. -/
def bytesToWords : List Nat → List Nat
  | b0 :: b1 :: b2 :: b3 :: rest =>
      ((b0 <<< 24) ||| (b1 <<< 16) ||| (b2 <<< 8) ||| b3) :: bytesToWords rest
  | _ => []

/-- Extend the 16 words of a SHA-1 block by `n` further schedule words. -/
def sha1ExtendAux : List Nat → Nat → List Nat
  | ws, 0 => ws
  | ws, n + 1 =>
      let l := ws.length
      let w := rotl 1 ((ws.getD (l - 3) 0) ^^^ (ws.getD (l - 8) 0) ^^^
        (ws.getD (l - 14) 0) ^^^ (ws.getD (l - 16) 0))
      sha1ExtendAux (ws ++ [w]) n

/-- Run the 80 SHA-1 rounds over the word schedule. -/
def sha1Rounds : List Nat → Nat → Nat × Nat × Nat × Nat × Nat → Nat × Nat × Nat × Nat × Nat
  | [], _, st => st
  | w :: ws, t, (a, b, c, d, e) =>
      let tmp := (rotl 5 a + sha1F t b c d + e + w + sha1K t) % w32
      sha1Rounds ws (t + 1) (tmp, a, rotl 30 b, c, d)

/-- Compress one 64-byte block into the running SHA-1 state. -/
def sha1Block (block : List Nat) (h : Nat × Nat × Nat × Nat × Nat) :
    Nat × Nat × Nat × Nat × Nat :=
  let ws := sha1ExtendAux (bytesToWords block) 64
  let (h0, h1, h2, h3, h4) := h
  let (a, b, c, d, e) := sha1Rounds ws 0 (h0, h1, h2, h3, h4)
  ((h0 + a) % w32, (h1 + b) % w32, (h2 + c) % w32, (h3 + d) % w32, (h4 + e) % w32)

/-- Fold `sha1Block` over the 64-byte chunks of a padded message; the fuel
argument (instantiated with the message length) keeps the recursion
structural. -/
def sha1BlocksAux : Nat → List Nat → Nat × Nat × Nat × Nat × Nat → Nat × Nat × Nat × Nat × Nat
  | 0, _, h => h
  | _ + 1, [], h => h
  | fuel + 1, ms, h => sha1BlocksAux fuel (ms.drop 64) (sha1Block (ms.take 64) h)

/-- SHA-1 padding: append `0x80`, zero bytes up to 56 mod 64, then the
bit length as a big-endian 64-bit integer. -/
def sha1Pad (ms : List Nat) : List Nat :=
  let len := ms.length
  let bitLen := 8 * len
  ms ++ 0x80 :: List.replicate ((119 - len % 64) % 64) 0 ++
    [(bitLen >>> 56) % 256, (bitLen >>> 48) % 256, (bitLen >>> 40) % 256,
     (bitLen >>> 32) % 256, (bitLen >>> 24) % 256, (bitLen >>> 16) % 256,
     (bitLen >>> 8) % 256, bitLen % 256]

/-- Serialize a 32-bit word to four big-endian bytes. -/
def wordToBytes (w : Nat) : List Nat :=
  [(w >>> 24) % 256, (w >>> 16) % 256, (w >>> 8) % 256, w % 256]

/-- The SHA-1 digest (20 bytes) of a byte list. -/
def sha1 (ms : List Nat) : List Nat :=
  let padded := sha1Pad ms
  let (h0, h1, h2, h3, h4) := sha1BlocksAux padded.length padded
    (0x67452301, 0xEFCDAB89, 0x98BADCFE, 0x10325476, 0xC3D2E1F0)
  wordToBytes h0 ++ wordToBytes h1 ++ wordToBytes h2 ++ wordToBytes h3 ++ wordToBytes h4

/-- UTF-8 encoding of one character. -/
def utf8EncodeCharBytes (c : Char) : List Nat :=
  let n := c.toNat
  if n < 0x80 then [n]
  else if n < 0x800 then [0xC0 ||| (n >>> 6), 0x80 ||| (n &&& 0x3F)]
  else if n < 0x10000 then
    [0xE0 ||| (n >>> 12), 0x80 ||| ((n >>> 6) &&& 0x3F), 0x80 ||| (n &&& 0x3F)]
  else
    [0xF0 ||| (n >>> 18), 0x80 ||| ((n >>> 12) &&& 0x3F),
     0x80 ||| ((n >>> 6) &&& 0x3F), 0x80 ||| (n &&& 0x3F)]

/-- UTF-8 encoding of a string. -/
def strUtf8 (s : String) : List Nat := (s.data.map utf8EncodeCharBytes).flatten

/-- The bytes of `uuid.NAMESPACE_DNS`, `6ba7b810-9dad-11d1-80b4-00c04fd430c8`. -/
def NAMESPACE_DNS : List Nat :=
  [0x6b, 0xa7, 0xb8, 0x10, 0x9d, 0xad, 0x11, 0xd1,
   0x80, 0xb4, 0x00, 0xc0, 0x4f, 0xd4, 0x30, 0xc8]

/-- Lowercase hexadecimal digit. -/
def hexDigitChar (n : Nat) : Char :=
  if n < 10 then Char.ofNat (48 + n) else Char.ofNat (87 + n)

/-- Two lowercase hex characters of a byte. -/
def byteHex (b : Nat) : List Char := [hexDigitChar (b / 16), hexDigitChar (b % 16)]

/-- The canonical 8-4-4-4-12 lowercase hyphenated form of 16 UUID bytes,
as produced by Python `str(uuid.UUID(...))`. -/
def uuidFormat (bytes : List Nat) : String :=
  let hx := fun (l : List Nat) => String.mk (l.map byteHex).flatten
  hx (bytes.take 4) ++ "-" ++ hx ((bytes.drop 4).take 2) ++ "-" ++
    hx ((bytes.drop 6).take 2) ++ "-" ++ hx ((bytes.drop 8).take 2) ++ "-" ++
    hx (bytes.drop 10)

/-- Python `str(uuid.uuid5(ns, name))`: SHA-1 of namespace bytes plus UTF-8 name,
truncated to 16 bytes, with version 5 and the RFC 4122 variant forced. -/
def uuid5 (ns : List Nat) (name : String) : String :=
  let digest := (sha1 (ns ++ strUtf8 name)).take 16
  let versioned := List.zipWith
    (fun (i b : Nat) =>
      if i = 6 then (b &&& 0x0F) ||| 0x50
      else if i = 8 then (b &&& 0x3F) ||| 0x80
      else b)
    (List.range 16) digest
  uuidFormat versioned

/-! ### Celery result states and worker recording

Celery, the external worker loop, records `SUCCESS` with the return value
when a task handler returns normally, and `FAILURE` with the exception
when the handler raises (spec section 4.2). A handler outcome is an
`Except`: `.ok` is a normal Python `return`, `.error` an uncaught
exception propagating out of the handler. -/

/-- The Celery task states. -/
inductive TaskState where
  | PENDING
  | STARTED
  | SUCCESS
  | FAILURE
deriving DecidableEq, Repr

/-- The terminal state the worker records for a finished handler call. -/
def celeryState {α : Type} (r : Except String α) : TaskState :=
  match r with
  | .ok _ => TaskState.SUCCESS
  | .error _ => TaskState.FAILURE

/-- A Python return value of a task handler: either a JSON string
(`final_details.model_dump_json()`, tasks.py line 110) or a dict with
string keys and values. -/
inductive TaskReturn where
  | strVal (s : String)
  | dict (fields : List (String × String))
deriving DecidableEq, Repr

/-- Does a dict carry the given key? -/
def hasKey (k : String) (fields : List (String × String)) : Bool :=
  fields.any (fun f => f.1 == k)

/-! ### The resume-parsing task (tasks.py lines 71-119) -/

/-- The kind of an outbound HTTP call made inside `parse_resume_task`. -/
inductive CallKind where
  | download
  | inference
deriving DecidableEq, Repr

/-- One outbound HTTP call: its kind, target URL, and the explicit
`timeout=` argument passed to `requests` at that call site (`none` when
the call site passes no timeout). -/
structure NetCall where
  kind : CallKind
  url : String
  timeout : Option Nat
deriving DecidableEq, Repr

/-- tasks.py lines 54-57: one professional work experience. -/
structure WorkExperience where
  title : String
  company : String
  duration : String
deriving DecidableEq, Repr

/-- tasks.py lines 59-61: one educational qualification. -/
structure Education where
  degree : String
  institution : String
deriving DecidableEq, Repr

/-- tasks.py lines 63-66: the structured resume schema. -/
structure ResumeDetails where
  skills : List String
  work_experience : List WorkExperience
  education : List Education
deriving DecidableEq, Repr

/-- tasks.py line 30: the inference endpoint URL. -/
def HF_API_URL : String :=
  "https://api-inference.huggingface.co/models/mistralai/Mistral-7B-Instruct-v0.3"

/-- The external collaborators of `parse_resume_task`, at their interface
boundary. `httpGet` models `requests.get` plus `raise_for_status` and
`.content` (line 78-80); `extractText` models `fitz.open` plus joining
`page.get_text()` (lines 80-81); `applyChatTemplate` models the
tokenizer call on the messages-plus-tools prompt built from the
truncated resume text (lines 84-89); `hfPost` models `requests.post`
plus `raise_for_status` plus the `json()[0]` generated-text projection
(lines 93-96); `parseToolCall` models `json.loads` on the scanned
fragment, the `[0]` and `arguments` lookups and the pydantic
validation (lines 106-109); `modelDumpJson` models pydantic
serialization (line 110). An `.error` value is the Python call raising. -/
structure ParseEnv where
  httpGet : String → Option Nat → Except String (List Nat)
  extractText : List Nat → Except String String
  applyChatTemplate : String → String
  hfPost : String → Option Nat → Except String String
  parseToolCall : String → Except String ResumeDetails
  modelDumpJson : ResumeDetails → String

/-- Does the second character list start with the first? -/
def leadsWith : List Char → List Char → Bool
  | [], _ => true
  | _ :: _, [] => false
  | a :: as, b :: bs => a == b && leadsWith as bs

/-- First index at or past `i` where the needle occurs in the haystack. -/
def subIdx : List Char → List Char → Nat → Option Nat
  | needle, [], i => if leadsWith needle [] then some i else none
  | needle, h :: t, i =>
      if leadsWith needle (h :: t) then some i else subIdx needle t (i + 1)

/-- Python `hay.find(needle)`, with `none` standing for `-1`. -/
def strFind (hay needle : String) : Option Nat := subIdx needle.data hay.data 0

/-- The delimiter scanned for in the raw LLM output, tasks.py line 104
(an opening brace, then `"name":`). -/
def toolCallDelim : String := "\x7b\"name\":"

/-- tasks.py lines 71-119, `parse_resume_task(resume_url)`, translated
branch by branch: every statement of the body sits inside the outer
`try`, whose `except` returns `{"error": str(e)}`; the fragment scan and
parse sit inside the inner `try`. The result is the handler outcome
together with the trace of outbound HTTP calls issued, each carrying the
`timeout=` argument of its call site (line 78 passes none, line 93 passes
`timeout=90`). -/
def parse_resume_task (env : ParseEnv) (resume_url : String) :
    Except String TaskReturn × List NetCall :=
  match env.httpGet resume_url none with
  | .error e => (.ok (.dict [("error", e)]), [⟨CallKind.download, resume_url, none⟩])
  | .ok content =>
    match env.extractText content with
    | .error e => (.ok (.dict [("error", e)]), [⟨CallKind.download, resume_url, none⟩])
    | .ok resume_text =>
      match env.hfPost (env.applyChatTemplate (String.mk (resume_text.data.take 4000)))
          (some 90) with
      | .error e =>
          (.ok (.dict [("error", e)]),
            [⟨CallKind.download, resume_url, none⟩, ⟨CallKind.inference, HF_API_URL, some 90⟩])
      | .ok raw_output =>
        match strFind raw_output toolCallDelim with
        | some json_str_start =>
          match env.parseToolCall (String.mk (raw_output.data.drop json_str_start)) with
          | .ok final_details =>
              (.ok (.strVal (env.modelDumpJson final_details)),
                [⟨CallKind.download, resume_url, none⟩,
                  ⟨CallKind.inference, HF_API_URL, some 90⟩])
          | .error _ =>
              (.ok (.dict [("error", "Failed to parse model output."),
                  ("raw_output", raw_output)]),
                [⟨CallKind.download, resume_url, none⟩,
                  ⟨CallKind.inference, HF_API_URL, some 90⟩])
        | none =>
            (.ok (.dict [("error", "Function call JSON not found in model output.")]),
              [⟨CallKind.download, resume_url, none⟩,
                ⟨CallKind.inference, HF_API_URL, some 90⟩])

/-! ### The Qdrant vector store, at its interface boundary -/

/-- The distance metric of a collection (`models.Distance.COSINE`). -/
inductive Distance where
  | COSINE
deriving DecidableEq, Repr

/-- The `models.VectorParams` configuration. -/
structure VectorParams where
  size : Nat
  distance : Distance
deriving DecidableEq, Repr

/-- A `models.PointStruct`: one vector-store record. -/
structure PointStruct where
  id : String
  vector : List Int
  payload : List (String × String)
deriving DecidableEq, Repr

/-- A named collection: its vector configuration and its points. -/
structure QCollection where
  config : VectorParams
  points : List PointStruct
deriving DecidableEq, Repr

/-- The vector store: an association list of named collections. -/
abbrev VectorStore := List (String × QCollection)

/-- Look a collection up by name. -/
def lookupCollection : VectorStore → String → Option QCollection
  | [], _ => none
  | (n, c) :: t, name => if n = name then some c else lookupCollection t name

/-- Remove every collection with the given name. -/
def dropCollection : VectorStore → String → VectorStore
  | [], _ => []
  | (n, c) :: t, name =>
      if n = name then dropCollection t name else (n, c) :: dropCollection t name

/-- Model of `qdrant_client.recreate_collection`: delete the named collection if it
exists and create it afresh, empty, with the given vector configuration. -/
def recreate_collection (store : VectorStore) (name : String) (cfg : VectorParams) :
    VectorStore :=
  dropCollection store name ++ [(name, ⟨cfg, []⟩)]

/-- tasks.py lines 37-48: importing the tasks module recreates the two
collections with 384-dimensional cosine vectors (the try-block path, both
external calls succeeding). -/
def tasksModuleInit (store : VectorStore) : VectorStore :=
  recreate_collection
    (recreate_collection store "jobs" ⟨384, Distance.COSINE⟩)
    "profiles" ⟨384, Distance.COSINE⟩

/-- Upsert-by-id inside one collection: overwrite the point carrying the
same id, or append the point if the id is new. -/
def upsertPoints (ps : List PointStruct) (p : PointStruct) : List PointStruct :=
  if ps.any (fun q => q.id == p.id) then ps.map (fun q => if q.id == p.id then p else q)
  else ps ++ [p]

/-- Replace the points of the named collection. -/
def setCollectionPoints : VectorStore → String → List PointStruct → VectorStore
  | [], _, _ => []
  | (n, c) :: t, name, ps =>
      if n = name then (n, ⟨c.config, ps⟩) :: t
      else (n, c) :: setCollectionPoints t name ps

/-- Model of `qdrant_client.upsert` on a single point: fails when the collection
does not exist, otherwise inserts or overwrites by point id. -/
def storeUpsert (store : VectorStore) (name : String) (p : PointStruct) :
    Except String VectorStore :=
  match lookupCollection store name with
  | none => .error ("Collection " ++ name ++ " not found")
  | some c => .ok (setCollectionPoints store name (upsertPoints c.points p))

/-! ### The embedding-creation task (tasks.py lines 122-137) -/

/-- The external encoder `embedding_model.encode(...).tolist()`
(tasks.py line 126); `.error` when the call raises. -/
structure EmbedEnv where
  encode : String → Except String (List Int)

/-- One recorded `qdrant_client.upsert` call: collection name, the point
upserted, and the `wait=` flag passed (tasks.py line 131 passes
`wait=True`, so the handler waits for acknowledgment). -/
structure UpsertCall where
  collection_name : String
  point : PointStruct
  wait : Bool
deriving DecidableEq, Repr

/-- tasks.py lines 122-137, `create_embedding_task(collection_name,
document_id, text_content)`, translated branch by branch: the whole body
sits in a `try` whose `except` returns `{"error": str(e)}`; the point id
is `str(uuid.uuid5(uuid.NAMESPACE_DNS, document_id))` (line 127) and the
payload is `{"original_id": document_id}` (line 130). Returns the handler
outcome, the vector store after the call, and the trace of upsert calls
issued. -/
def create_embedding_task (env : EmbedEnv) (collection_name document_id text_content : String)
    (store : VectorStore) : Except String TaskReturn × VectorStore × List UpsertCall :=
  match env.encode text_content with
  | .error e => (.ok (.dict [("error", e)]), store, [])
  | .ok vector =>
    match storeUpsert store collection_name
        ⟨uuid5 NAMESPACE_DNS document_id, vector, [("original_id", document_id)]⟩ with
    | .error e =>
        (.ok (.dict [("error", e)]), store,
          [⟨collection_name, ⟨uuid5 NAMESPACE_DNS document_id, vector,
            [("original_id", document_id)]⟩, true⟩])
    | .ok store2 =>
        (.ok (.dict [("status", "success"), ("documentId", document_id)]), store2,
          [⟨collection_name, ⟨uuid5 NAMESPACE_DNS document_id, vector,
            [("original_id", document_id)]⟩, true⟩])

/-! ### The synchronous search endpoint (main.py lines 41-65) -/

/-- A scored hit as returned by `qdrant_client.search`. -/
structure ScoredPoint where
  id : String
  score : Int
deriving DecidableEq, Repr

/-- Similarity score of a stored vector against the query vector. Qdrant
scores by cosine similarity over normalized vectors; every property
proved below depends only on ranking and truncation, never on the score
formula, so the model scores by dot product over the integer model
vectors. -/
def dotScore (u v : List Int) : Int := (List.zipWith (fun a b => a * b) u v).sum

/-- The descending-score order used to rank hits. -/
def scoreGE (a b : ScoredPoint) : Prop := b.score ≤ a.score

instance : DecidableRel scoreGE :=
  fun a b => inferInstanceAs (Decidable (b.score ≤ a.score))

instance : IsTotal ScoredPoint scoreGE := ⟨fun a b => le_total b.score a.score⟩

instance : IsTrans ScoredPoint scoreGE := ⟨fun _ _ _ h1 h2 => le_trans h2 h1⟩

/-- Model of `qdrant_client.search`: the top-`limit` points of the named collection
by descending score; fails when the collection does not exist. -/
def qdrantSearch (store : VectorStore) (name : String) (query_vector : List Int)
    (limit : Nat) : Except String (List ScoredPoint) :=
  match lookupCollection store name with
  | none => .error ("Collection " ++ name ++ " not found")
  | some c =>
      .ok (((c.points.map (fun p => ScoredPoint.mk p.id (dotScore query_vector p.vector))).insertionSort
        scoreGE).take limit)

/-- main.py lines 17-20: the search request body; `limit` defaults to 10. -/
structure MatchRequest where
  collection : String
  textContent : String
  limit : Nat := 10

/-- An HTTP response of the synchronous search endpoint: the 200 body, or
the `HTTPException` status code and detail raised on failure. -/
inductive SearchResponse where
  | ok200 (rankedResults : List (String × Int))
  | httpError (statusCode : Nat) (detail : String)
deriving DecidableEq, Repr

/-- The external collaborators of the search endpoint: the shared
sentence-transformer encoder (main.py line 49). -/
structure SearchEnv where
  encode : String → Except String (List Int)

/-- main.py lines 41-65, `find_matches(request)`: encode the text, search
the collection, rank the hits; the surrounding `try` converts any failure
into `HTTPException(status_code=500, detail="Internal server error during
search.")`. -/
def find_matches (env : SearchEnv) (store : VectorStore) (request : MatchRequest) :
    SearchResponse :=
  match env.encode request.textContent with
  | .error _ => .httpError 500 "Internal server error during search."
  | .ok vector =>
    match qdrantSearch store request.collection vector request.limit with
    | .error _ => .httpError 500 "Internal server error during search."
    | .ok search_result =>
        .ok200 (search_result.map (fun hit => (hit.id, hit.score)))

/-! ### The asynchronous endpoints (main.py lines 29-39) -/

/-- A Celery task invocation message, as published by `.delay`. -/
structure TaskInvocation where
  task_id : String
  task_name : String
  args : List String
deriving DecidableEq, Repr

/-- The broker queue of pending invocations. -/
structure BrokerState where
  queue : List TaskInvocation
deriving DecidableEq, Repr

/-- Model of `task.delay(args...)`: publish an invocation message under a fresh
task id and return the id immediately, without executing anything. -/
def taskDelay (broker : BrokerState) (freshId : String) (name : String)
    (args : List String) : String × BrokerState :=
  (freshId, ⟨broker.queue ++ [⟨freshId, name, args⟩]⟩)

/-- main.py lines 9-10: the resume-parsing request body. -/
structure ResumeParseRequest where
  resumeUrl : String

/-- main.py lines 12-15: the sync request body. -/
structure SyncRequest where
  collection : String
  documentId : String
  textContent : String

/-- An HTTP response of an asynchronous endpoint: status code and body
fields. FastAPI answers 200 by default on these routes. -/
structure ApiResponse where
  statusCode : Nat
  body : List (String × String)
deriving DecidableEq, Repr

/-- main.py lines 29-33, `submit_resume_parsing(request)`. -/
def submit_resume_parsing (broker : BrokerState) (freshId : String)
    (request : ResumeParseRequest) : ApiResponse × BrokerState :=
  let (taskId, broker2) := taskDelay broker freshId "parse_resume_task" [request.resumeUrl]
  (⟨200, [("taskId", taskId), ("status", "processing")]⟩, broker2)

/-- main.py lines 35-39, `sync_document(request)`. -/
def sync_document (broker : BrokerState) (freshId : String) (request : SyncRequest) :
    ApiResponse × BrokerState :=
  let (taskId, broker2) := taskDelay broker freshId "create_embedding_task"
    [request.collection, request.documentId, request.textContent]
  (⟨200, [("taskId", taskId), ("status", "syncing")]⟩, broker2)

/-! ### Store lemmas -/

theorem lookupCollection_append_left_none (s1 s2 : VectorStore) (name : String)
    (h : lookupCollection s1 name = none) :
    lookupCollection (s1 ++ s2) name = lookupCollection s2 name := by
  induction s1 with
  | nil => rfl
  | cons hd t ih =>
      obtain ⟨n, c⟩ := hd
      by_cases hn : n = name
      · simp [lookupCollection, hn] at h
      · simp only [lookupCollection, if_neg hn, List.cons_append] at h ⊢
        exact ih h

theorem lookupCollection_dropCollection_self (store : VectorStore) (name : String) :
    lookupCollection (dropCollection store name) name = none := by
  induction store with
  | nil => rfl
  | cons hd t ih =>
      obtain ⟨n, c⟩ := hd
      by_cases hn : n = name
      · simpa [dropCollection, if_pos hn] using ih
      · simpa [dropCollection, lookupCollection, if_neg hn] using ih

theorem lookupCollection_dropCollection_ne (store : VectorStore) (name m : String)
    (h : m ≠ name) :
    lookupCollection (dropCollection store name) m = lookupCollection store m := by
  induction store with
  | nil => rfl
  | cons hd t ih =>
      obtain ⟨n, c⟩ := hd
      by_cases hn : n = name
      · have hnm : n ≠ m := fun he => h (he ▸ hn)
        simp only [dropCollection, if_pos hn, lookupCollection, if_neg hnm]
        exact ih
      · by_cases hm : n = m
        · simp [dropCollection, if_neg hn, lookupCollection, if_pos hm]
        · simp only [dropCollection, if_neg hn, lookupCollection, if_neg hm]
          exact ih

theorem lookupCollection_recreate_self (store : VectorStore) (name : String)
    (cfg : VectorParams) :
    lookupCollection (recreate_collection store name cfg) name = some ⟨cfg, []⟩ := by
  unfold recreate_collection
  rw [lookupCollection_append_left_none _ _ _ (lookupCollection_dropCollection_self store name)]
  simp [lookupCollection]

theorem lookupCollection_recreate_ne (store : VectorStore) (name m : String)
    (cfg : VectorParams) (h : m ≠ name) :
    lookupCollection (recreate_collection store name cfg) m = lookupCollection store m := by
  unfold recreate_collection
  rw [← lookupCollection_dropCollection_ne store name m h]
  have hnm : ¬name = m := fun he => h he.symm
  induction dropCollection store name with
  | nil => simp [lookupCollection, hnm]
  | cons hd t ih =>
      obtain ⟨n, c⟩ := hd
      by_cases hm : n = m
      · simp [lookupCollection, if_pos hm]
      · simpa only [List.cons_append, lookupCollection, if_neg hm] using ih

/-- C5: importing the tasks module (tasks.py lines 37-48) recreates both
vector-store collections `jobs` and `profiles` with 384-dimensional
cosine-distance vectors; whatever points either collection held before
are gone afterwards (the fresh collections are empty), for every prior
store state. -/
theorem tasksModuleInit_recreates_collections (store : VectorStore) :
    lookupCollection (tasksModuleInit store) "jobs" = some ⟨⟨384, Distance.COSINE⟩, []⟩ ∧
    lookupCollection (tasksModuleInit store) "profiles" = some ⟨⟨384, Distance.COSINE⟩, []⟩ := by
  constructor
  · unfold tasksModuleInit
    rw [lookupCollection_recreate_ne _ _ _ _ (by decide)]
    exact lookupCollection_recreate_self _ _ _
  · exact lookupCollection_recreate_self _ _ _

/-- C9: for every request and broker state, `POST /v1/parsing/resume`
appends one `parse_resume_task` invocation to the broker queue and
returns `{taskId, status: "processing"}` with HTTP 200, and
`POST /internal/sync` appends one `create_embedding_task` invocation and
returns `{taskId, status: "syncing"}` with HTTP 200; the response is
produced by the enqueue alone, before and independent of any handler
execution, hence regardless of the eventual success or failure of the task. -/
theorem async_endpoints_enqueue_and_return_200 (broker : BrokerState) (freshId : String)
    (preq : ResumeParseRequest) (sreq : SyncRequest) :
    submit_resume_parsing broker freshId preq =
      (⟨200, [("taskId", freshId), ("status", "processing")]⟩,
        ⟨broker.queue ++ [⟨freshId, "parse_resume_task", [preq.resumeUrl]⟩]⟩) ∧
    sync_document broker freshId sreq =
      (⟨200, [("taskId", freshId), ("status", "syncing")]⟩,
        ⟨broker.queue ++ [⟨freshId, "create_embedding_task",
          [sreq.collection, sreq.documentId, sreq.textContent]⟩]⟩) :=
  ⟨rfl, rfl⟩

/-- C7: for every internal failure during the synchronous search --
whether the embedding call raises or the vector-store search fails (for
example because the collection does not exist) -- the endpoint answers
HTTP 500 with the fixed generic detail `Internal server error during
search.`; the body is the same constant for every internal error, so no
internal detail reaches the caller. -/
theorem find_matches_internal_failure_500 :
    (∀ (env : SearchEnv) (store : VectorStore) (request : MatchRequest) (e : String),
      env.encode request.textContent = .error e →
      find_matches env store request = .httpError 500 "Internal server error during search.") ∧
    (∀ (env : SearchEnv) (store : VectorStore) (request : MatchRequest) (vector : List Int),
      env.encode request.textContent = .ok vector →
      lookupCollection store request.collection = none →
      find_matches env store request = .httpError 500 "Internal server error during search.") := by
  constructor
  · intro env store request e h
    unfold find_matches
    rw [h]
  · intro env store request vector h1 h2
    unfold find_matches qdrantSearch
    rw [h1, h2]

/-- A search environment whose encoder always raises. -/
def encodeFailEnv : SearchEnv := ⟨fun _ => .error "model exploded"⟩

/-- A search environment whose encoder returns a fixed vector. -/
def encodeOkEnv : SearchEnv := ⟨fun _ => .ok [1, 0, 0]⟩

theorem find_matches_internal_failure_500_witness :
    find_matches encodeFailEnv [] ⟨"jobs", "golang", 10⟩ =
      .httpError 500 "Internal server error during search." ∧
    find_matches encodeOkEnv [] ⟨"jobs", "golang", 10⟩ =
      .httpError 500 "Internal server error during search." :=
  ⟨find_matches_internal_failure_500.1 encodeFailEnv [] ⟨"jobs", "golang", 10⟩
      "model exploded" rfl,
   find_matches_internal_failure_500.2 encodeOkEnv [] ⟨"jobs", "golang", 10⟩
      [1, 0, 0] rfl rfl⟩

/-- C10: for every environment and resume URL, every outbound call the
resume-parsing handler issues carries `timeout=90` exactly when it is the
inference call (tasks.py line 93); the resume download call (line 78)
carries no timeout. -/
theorem parse_resume_timeout_only_on_inference (env : ParseEnv) (resume_url : String) :
    ((parse_resume_task env resume_url).2.all fun nc =>
      match nc.kind with
      | CallKind.download => nc.timeout == none
      | CallKind.inference => nc.timeout == some 90) = true := by
  unfold parse_resume_task
  split
  · rfl
  · split
    · rfl
    · split
      · rfl
      · split
        · split
          · rfl
          · rfl
        · rfl

/-! ### Concrete environments for the closed witnesses and counterexamples -/

/-- A parse environment whose resume download raises, as happens for a
malformed or unreachable resume URL. -/
def downloadFailEnv : ParseEnv where
  httpGet := fun _ _ => .error "Max retries exceeded with url"
  extractText := fun _ => .ok ""
  applyChatTemplate := fun s => s
  hfPost := fun _ _ => .ok ""
  parseToolCall := fun _ => .error "KeyError"
  modelDumpJson := fun _ => ""

/-- A parse environment where download, extraction and inference all
succeed but the raw LLM output does not contain the scanned delimiter. -/
def noToolCallEnv : ParseEnv where
  httpGet := fun _ _ => .ok [37, 80, 68, 70]
  extractText := fun _ => .ok "resume text"
  applyChatTemplate := fun s => s
  hfPost := fun _ _ => .ok "I cannot parse this resume, sorry."
  parseToolCall := fun _ => .error "KeyError"
  modelDumpJson := fun _ => ""

/-- An embedding environment whose encoder raises. -/
def encodeFailEmbedEnv : EmbedEnv := ⟨fun _ => .error "encoder crashed"⟩

/-- An embedding environment whose encoder returns a fixed vector. -/
def encodeOkEmbedEnv : EmbedEnv := ⟨fun _ => .ok [1, 0, 0]⟩

/-- A store holding one empty collection named `jobs`. -/
def jobsStore : VectorStore := [("jobs", ⟨⟨384, Distance.COSINE⟩, []⟩)]

/-- C2: for every environment and input, both task handlers return
normally (an `.ok` outcome, never a propagated exception), so the
recorded terminal state is SUCCESS even when processing failed; every
failure path returns a dict carrying an `error` key: for the resume
parser every dict result carries one (its success value is a JSON
string, not a dict), and for the embedding task both the
encoder-failure path and the upsert-failure path return
`{"error": str(e)}`. -/
theorem handlers_return_normally_success_state (penv : ParseEnv) (resume_url : String)
    (eenv : EmbedEnv) (collection_name document_id text_content : String)
    (store : VectorStore) :
    celeryState (parse_resume_task penv resume_url).1 = TaskState.SUCCESS ∧
    (∀ fields, (parse_resume_task penv resume_url).1 = .ok (.dict fields) →
      hasKey "error" fields = true) ∧
    celeryState (create_embedding_task eenv collection_name document_id text_content store).1 =
      TaskState.SUCCESS ∧
    (∀ e, eenv.encode text_content = .error e →
      (create_embedding_task eenv collection_name document_id text_content store).1 =
        .ok (.dict [("error", e)])) ∧
    (∀ vector e, eenv.encode text_content = .ok vector →
      storeUpsert store collection_name
        ⟨uuid5 NAMESPACE_DNS document_id, vector, [("original_id", document_id)]⟩ =
        .error e →
      (create_embedding_task eenv collection_name document_id text_content store).1 =
        .ok (.dict [("error", e)])) := by
  refine ⟨?_, ?_, ?_, ?_, ?_⟩
  · unfold parse_resume_task
    repeat any_goals split
    all_goals rfl
  · intro fields hf
    unfold parse_resume_task at hf
    repeat any_goals split at hf
    all_goals simp at hf
    all_goals subst hf
    all_goals rfl
  · unfold create_embedding_task
    repeat any_goals split
    all_goals rfl
  · intro e he
    unfold create_embedding_task
    rw [he]
  · intro vector e h1 h2
    unfold create_embedding_task
    simp only [h1, h2]

theorem handlers_return_normally_success_state_witness :
    celeryState (parse_resume_task downloadFailEnv "http://bad.invalid/cv.pdf").1 =
      TaskState.SUCCESS ∧
    hasKey "error" [("error", "Max retries exceeded with url")] = true ∧
    celeryState (create_embedding_task encodeFailEmbedEnv "jobs" "job_101" "text" jobsStore).1 =
      TaskState.SUCCESS ∧
    (create_embedding_task encodeFailEmbedEnv "jobs" "job_101" "text" jobsStore).1 =
      .ok (.dict [("error", "encoder crashed")]) :=
  ⟨(handlers_return_normally_success_state downloadFailEnv "http://bad.invalid/cv.pdf"
      encodeFailEmbedEnv "jobs" "job_101" "text" jobsStore).1,
   (handlers_return_normally_success_state downloadFailEnv "http://bad.invalid/cv.pdf"
      encodeFailEmbedEnv "jobs" "job_101" "text" jobsStore).2.1
      [("error", "Max retries exceeded with url")] rfl,
   (handlers_return_normally_success_state downloadFailEnv "http://bad.invalid/cv.pdf"
      encodeFailEmbedEnv "jobs" "job_101" "text" jobsStore).2.2.1,
   (handlers_return_normally_success_state downloadFailEnv "http://bad.invalid/cv.pdf"
      encodeFailEmbedEnv "jobs" "job_101" "text" jobsStore).2.2.2.1 "encoder crashed" rfl⟩

/-- C1 is refuted as stated: at a concrete environment where the resume
download raises (unreachable URL), the handler returns the error dict
normally, so the worker records SUCCESS, not the claimed FAILURE. -/
theorem unreachable_url_not_failure :
    celeryState (parse_resume_task downloadFailEnv "http://bad.invalid/cv.pdf").1 =
      TaskState.SUCCESS ∧
    celeryState (parse_resume_task downloadFailEnv "http://bad.invalid/cv.pdf").1 ≠
      TaskState.FAILURE :=
  ⟨rfl, by decide⟩

/-- C1 (amended): for every resume URL whose download raises (malformed
or unreachable URL), the task reaches the terminal state SUCCESS -- not
FAILURE -- carrying the result dict `{"error": str(e)}`; it never stays
PENDING forever and the worker does not crash, the handler having
returned normally. -/
theorem unreachable_url_terminal_success_with_error (env : ParseEnv) (resume_url e : String)
    (h : env.httpGet resume_url none = .error e) :
    (parse_resume_task env resume_url).1 = .ok (.dict [("error", e)]) ∧
    celeryState (parse_resume_task env resume_url).1 = TaskState.SUCCESS := by
  unfold parse_resume_task
  rw [h]
  exact ⟨rfl, rfl⟩

theorem unreachable_url_terminal_success_with_error_witness :
    (parse_resume_task downloadFailEnv "http://bad.invalid/cv.pdf").1 =
      .ok (.dict [("error", "Max retries exceeded with url")]) ∧
    celeryState (parse_resume_task downloadFailEnv "http://bad.invalid/cv.pdf").1 =
      TaskState.SUCCESS :=
  unreachable_url_terminal_success_with_error downloadFailEnv "http://bad.invalid/cv.pdf"
    "Max retries exceeded with url" rfl

/-- C3 is refuted as stated: at a concrete environment where download,
extraction and inference succeed but the raw LLM output contains no
occurrence of the scanned delimiter, the task returns the format-error
dict normally and the worker records SUCCESS, not the claimed FAILURE. -/
theorem delimiter_miss_not_failure :
    (parse_resume_task noToolCallEnv "http://cv.example/r.pdf").1 =
      .ok (.dict [("error", "Function call JSON not found in model output.")]) ∧
    celeryState (parse_resume_task noToolCallEnv "http://cv.example/r.pdf").1 ≠
      TaskState.FAILURE := by
  constructor
  · rfl
  · decide

/-- C3 (amended): whenever the delimiter-scan heuristic finds no
occurrence of the fragment delimiter in the raw LLM output, the
resume-parsing task does not crash and completes with the dict
`{"error": "Function call JSON not found in model output."}`, which the
worker records as SUCCESS -- not as the claimed FAILURE record. -/
theorem delimiter_miss_terminal_success_with_error (env : ParseEnv)
    (resume_url : String) (content : List Nat) (resume_text raw_output : String)
    (h1 : env.httpGet resume_url none = .ok content)
    (h2 : env.extractText content = .ok resume_text)
    (h3 : env.hfPost (env.applyChatTemplate (String.mk (resume_text.data.take 4000)))
      (some 90) = .ok raw_output)
    (h4 : strFind raw_output toolCallDelim = none) :
    (parse_resume_task env resume_url).1 =
      .ok (.dict [("error", "Function call JSON not found in model output.")]) ∧
    celeryState (parse_resume_task env resume_url).1 = TaskState.SUCCESS := by
  have hp : parse_resume_task env resume_url =
      (.ok (.dict [("error", "Function call JSON not found in model output.")]),
        [⟨CallKind.download, resume_url, none⟩,
          ⟨CallKind.inference, HF_API_URL, some 90⟩]) := by
    simp only [parse_resume_task, h1, h2, h3, h4]
  rw [hp]
  exact ⟨rfl, rfl⟩

theorem delimiter_miss_terminal_success_with_error_witness :
    (parse_resume_task noToolCallEnv "http://cv.example/r.pdf").1 =
      .ok (.dict [("error", "Function call JSON not found in model output.")]) ∧
    celeryState (parse_resume_task noToolCallEnv "http://cv.example/r.pdf").1 =
      TaskState.SUCCESS :=
  delimiter_miss_terminal_success_with_error noToolCallEnv "http://cv.example/r.pdf"
    [37, 80, 68, 70] "resume text" "I cannot parse this resume, sorry." rfl rfl rfl
    (by decide)

/-- C8: whenever the encoder succeeds and the target collection exists,
the embedding task issues exactly one upsert call, with `wait := true`
(the handler waits for acknowledgment before returning), whose point
carries the UUID-v5 id derived from document_id and the payload
`{"original_id": document_id}`; the handler returns
`{"status": "success", "documentId": document_id}`, recorded as SUCCESS
-- so polling a seeded document such as job_101 observes SUCCESS with
that payload. -/
theorem embedding_success_result_payload_wait (eenv : EmbedEnv)
    (collection_name document_id text_content : String) (store : VectorStore)
    (vector : List Int) (c : QCollection)
    (h1 : eenv.encode text_content = .ok vector)
    (h2 : lookupCollection store collection_name = some c) :
    (create_embedding_task eenv collection_name document_id text_content store).1 =
      .ok (.dict [("status", "success"), ("documentId", document_id)]) ∧
    celeryState (create_embedding_task eenv collection_name document_id text_content store).1 =
      TaskState.SUCCESS ∧
    (create_embedding_task eenv collection_name document_id text_content store).2.2 =
      [⟨collection_name, ⟨uuid5 NAMESPACE_DNS document_id, vector,
        [("original_id", document_id)]⟩, true⟩] := by
  have hu : storeUpsert store collection_name
      ⟨uuid5 NAMESPACE_DNS document_id, vector, [("original_id", document_id)]⟩ =
      .ok (setCollectionPoints store collection_name
        (upsertPoints c.points ⟨uuid5 NAMESPACE_DNS document_id, vector,
          [("original_id", document_id)]⟩)) := by
    unfold storeUpsert
    rw [h2]
  have hmain : create_embedding_task eenv collection_name document_id text_content store =
      (.ok (.dict [("status", "success"), ("documentId", document_id)]),
        setCollectionPoints store collection_name
          (upsertPoints c.points ⟨uuid5 NAMESPACE_DNS document_id, vector,
            [("original_id", document_id)]⟩),
        [⟨collection_name, ⟨uuid5 NAMESPACE_DNS document_id, vector,
          [("original_id", document_id)]⟩, true⟩]) := by
    simp only [create_embedding_task, h1, hu]
  rw [hmain]
  exact ⟨rfl, rfl, rfl⟩

theorem embedding_success_result_payload_wait_witness :
    (create_embedding_task encodeOkEmbedEnv "jobs" "job_101" "golang services" jobsStore).1 =
      .ok (.dict [("status", "success"), ("documentId", "job_101")]) ∧
    celeryState
      (create_embedding_task encodeOkEmbedEnv "jobs" "job_101" "golang services" jobsStore).1 =
      TaskState.SUCCESS ∧
    (create_embedding_task encodeOkEmbedEnv "jobs" "job_101" "golang services" jobsStore).2.2 =
      [⟨"jobs", ⟨uuid5 NAMESPACE_DNS "job_101", [1, 0, 0],
        [("original_id", "job_101")]⟩, true⟩] :=
  embedding_success_result_payload_wait encodeOkEmbedEnv "jobs" "job_101" "golang services"
    jobsStore [1, 0, 0] ⟨⟨384, Distance.COSINE⟩, []⟩ rfl rfl

/-! ### Upsert idempotence lemmas -/

theorem upsertPoints_map_self (ps : List PointStruct) (p : PointStruct) :
    ((ps.map fun q => if q.id == p.id then p else q).map
        fun q => if q.id == p.id then p else q) =
      ps.map fun q => if q.id == p.id then p else q := by
  rw [List.map_map]
  apply List.map_congr_left
  intro q _
  by_cases hq : (q.id == p.id) = true
  · simp [Function.comp, hq]
  · simp [Function.comp, hq]

theorem upsertPoints_idem (ps : List PointStruct) (p : PointStruct) :
    upsertPoints (upsertPoints ps p) p = upsertPoints ps p := by
  unfold upsertPoints
  by_cases h : (ps.any fun q => q.id == p.id) = true
  · rw [if_pos h, if_pos ?side]
    case side =>
      rw [List.any_map, List.any_eq_true] at *
      obtain ⟨q, hq, hpq⟩ := h
      exact ⟨q, hq, by simp [Function.comp, hpq]⟩
    exact upsertPoints_map_self ps p
  · rw [if_neg h, if_pos ?side2]
    case side2 =>
      rw [List.any_append]
      simp
    rw [List.map_append]
    have h1 : (ps.map fun q => if q.id == p.id then p else q) = ps := by
      have hall := List.any_eq_false.mp (Bool.eq_false_iff.mpr h)
      calc (ps.map fun q => if q.id == p.id then p else q)
          = ps.map id := by
            apply List.map_congr_left
            intro q hq
            simp [hall q hq]
        _ = ps := List.map_id ps
    rw [h1]
    simp

theorem upsertPoints_countP (ps : List PointStruct) (p : PointStruct)
    (h : ps.countP (fun q => q.id == p.id) ≤ 1) :
    (upsertPoints ps p).countP (fun q => q.id == p.id) = 1 := by
  unfold upsertPoints
  by_cases ha : (ps.any fun q => q.id == p.id) = true
  · rw [if_pos ha]
    have hmap : (ps.map fun q => if q.id == p.id then p else q).countP
        (fun q => q.id == p.id) = ps.countP (fun q => q.id == p.id) := by
      rw [List.countP_map]
      apply List.countP_congr
      intro q _
      by_cases hq : (q.id == p.id) = true
      · simp [Function.comp, hq]
      · simp [Function.comp, hq]
    rw [hmap]
    have hpos : 0 < ps.countP (fun q => q.id == p.id) := by
      rw [List.countP_pos_iff]
      rw [List.any_eq_true] at ha
      obtain ⟨q, hq, hx⟩ := ha
      exact ⟨q, hq, hx⟩
    omega
  · rw [if_neg ha, List.countP_append]
    have h0 : ps.countP (fun q => q.id == p.id) = 0 := by
      rw [List.countP_eq_zero]
      intro q hq
      have hall := List.any_eq_false.mp (Bool.eq_false_iff.mpr ha)
      simp [hall q hq]
    rw [h0]
    simp [List.countP_cons]

theorem lookupCollection_setCollectionPoints (store : VectorStore) (name : String)
    (c : QCollection) (ps : List PointStruct)
    (h : lookupCollection store name = some c) :
    lookupCollection (setCollectionPoints store name ps) name = some ⟨c.config, ps⟩ := by
  induction store with
  | nil => simp [lookupCollection] at h
  | cons hd t ih =>
      obtain ⟨n, c2⟩ := hd
      by_cases hn : n = name
      · simp only [lookupCollection, if_pos hn] at h
        obtain rfl : c2 = c := by injection h
        simp [setCollectionPoints, if_pos hn, lookupCollection]
      · simp only [lookupCollection, if_neg hn] at h
        simp only [setCollectionPoints, if_neg hn, lookupCollection]
        exact ih h

theorem setCollectionPoints_setCollectionPoints (store : VectorStore) (name : String)
    (ps ps2 : List PointStruct) :
    setCollectionPoints (setCollectionPoints store name ps) name ps2 =
      setCollectionPoints store name ps2 := by
  induction store with
  | nil => rfl
  | cons hd t ih =>
      obtain ⟨n, c⟩ := hd
      by_cases hn : n = name
      · simp [setCollectionPoints, if_pos hn]
      · simp only [setCollectionPoints, if_neg hn, List.cons.injEq, true_and]
        exact ih

/-- C4: the vector-store point id is derived from document_id alone by
namespace-based UUID-v5 (`uuid5 NAMESPACE_DNS document_id`, a function
of document_id, hence deterministic across submissions), so submitting
the embedding task twice with the same document_id leaves the store
exactly as a single submission does, and the target collection then
holds exactly one point carrying the derived id -- the second upsert
overwrites the first -- not two. -/
theorem embedding_twice_one_point (eenv : EmbedEnv)
    (collection_name document_id text_content : String) (store : VectorStore)
    (vector : List Int) (c : QCollection)
    (h1 : eenv.encode text_content = .ok vector)
    (h2 : lookupCollection store collection_name = some c)
    (h3 : c.points.countP (fun q => q.id == uuid5 NAMESPACE_DNS document_id) ≤ 1) :
    (create_embedding_task eenv collection_name document_id text_content
        ((create_embedding_task eenv collection_name document_id text_content store).2.1)).2.1 =
      (create_embedding_task eenv collection_name document_id text_content store).2.1 ∧
    ∃ c1, lookupCollection
        ((create_embedding_task eenv collection_name document_id text_content store).2.1)
        collection_name = some c1 ∧
      c1.points.countP (fun q => q.id == uuid5 NAMESPACE_DNS document_id) = 1 := by
  have hu1 : storeUpsert store collection_name
      ⟨uuid5 NAMESPACE_DNS document_id, vector, [("original_id", document_id)]⟩ =
      .ok (setCollectionPoints store collection_name
        (upsertPoints c.points ⟨uuid5 NAMESPACE_DNS document_id, vector,
          [("original_id", document_id)]⟩)) := by
    unfold storeUpsert
    rw [h2]
  have e1 : (create_embedding_task eenv collection_name document_id text_content store).2.1 =
      setCollectionPoints store collection_name
        (upsertPoints c.points ⟨uuid5 NAMESPACE_DNS document_id, vector,
          [("original_id", document_id)]⟩) := by
    simp only [create_embedding_task, h1, hu1]
  have hl1 : lookupCollection
      (setCollectionPoints store collection_name
        (upsertPoints c.points ⟨uuid5 NAMESPACE_DNS document_id, vector,
          [("original_id", document_id)]⟩)) collection_name =
      some ⟨c.config, upsertPoints c.points ⟨uuid5 NAMESPACE_DNS document_id, vector,
        [("original_id", document_id)]⟩⟩ :=
    lookupCollection_setCollectionPoints store collection_name c _ h2
  have hu2 : storeUpsert
      (setCollectionPoints store collection_name
        (upsertPoints c.points ⟨uuid5 NAMESPACE_DNS document_id, vector,
          [("original_id", document_id)]⟩)) collection_name
      ⟨uuid5 NAMESPACE_DNS document_id, vector, [("original_id", document_id)]⟩ =
      .ok (setCollectionPoints store collection_name
        (upsertPoints c.points ⟨uuid5 NAMESPACE_DNS document_id, vector,
          [("original_id", document_id)]⟩)) := by
    unfold storeUpsert
    rw [hl1]
    simp only [upsertPoints_idem, setCollectionPoints_setCollectionPoints]
  have e2 : (create_embedding_task eenv collection_name document_id text_content
      (setCollectionPoints store collection_name
        (upsertPoints c.points ⟨uuid5 NAMESPACE_DNS document_id, vector,
          [("original_id", document_id)]⟩))).2.1 =
      setCollectionPoints store collection_name
        (upsertPoints c.points ⟨uuid5 NAMESPACE_DNS document_id, vector,
          [("original_id", document_id)]⟩) := by
    simp only [create_embedding_task, h1, hu2]
  constructor
  · rw [e1, e2]
  · refine ⟨⟨c.config, upsertPoints c.points ⟨uuid5 NAMESPACE_DNS document_id, vector,
      [("original_id", document_id)]⟩⟩, ?_, ?_⟩
    · rw [e1]
      exact hl1
    · exact upsertPoints_countP c.points
        ⟨uuid5 NAMESPACE_DNS document_id, vector, [("original_id", document_id)]⟩ h3

theorem embedding_twice_one_point_witness :
    (create_embedding_task encodeOkEmbedEnv "jobs" "job_101" "golang services"
        ((create_embedding_task encodeOkEmbedEnv "jobs" "job_101" "golang services"
          jobsStore).2.1)).2.1 =
      (create_embedding_task encodeOkEmbedEnv "jobs" "job_101" "golang services"
        jobsStore).2.1 ∧
    ∃ c1, lookupCollection
        ((create_embedding_task encodeOkEmbedEnv "jobs" "job_101" "golang services"
          jobsStore).2.1) "jobs" = some c1 ∧
      c1.points.countP (fun q => q.id == uuid5 NAMESPACE_DNS "job_101") = 1 :=
  embedding_twice_one_point encodeOkEmbedEnv "jobs" "job_101" "golang services" jobsStore
    [1, 0, 0] ⟨⟨384, Distance.COSINE⟩, []⟩ rfl rfl (by simp)

/-- C6: for every search request, a successful response of the search
endpoint carries `rankedResults` pairs `(id, score)` sorted by descending
score, with at most `limit` results (and the `limit` field of the request
defaults to 10); a search over an existing but empty collection answers
the empty list rather than an error. -/
theorem find_matches_sorted_limited_empty :
    (∀ (env : SearchEnv) (store : VectorStore) (request : MatchRequest)
      (rr : List (String × Int)),
      find_matches env store request = .ok200 rr →
      rr.Pairwise (fun a b => b.2 ≤ a.2) ∧ rr.length ≤ request.limit) ∧
    (∀ (env : SearchEnv) (store : VectorStore) (request : MatchRequest)
      (vector : List Int) (cfg : VectorParams),
      env.encode request.textContent = .ok vector →
      lookupCollection store request.collection = some ⟨cfg, []⟩ →
      find_matches env store request = .ok200 []) ∧
    (∀ c t : String, ({ collection := c, textContent := t } : MatchRequest).limit = 10) := by
  refine ⟨?_, ?_, ?_⟩
  · intro env store request rr hr
    cases he : env.encode request.textContent with
    | error e => simp [find_matches, he] at hr
    | ok vector =>
      cases hl : lookupCollection store request.collection with
      | none => simp [find_matches, qdrantSearch, he, hl] at hr
      | some c =>
        simp only [find_matches, qdrantSearch, he, hl, SearchResponse.ok200.injEq] at hr
        subst hr
        constructor
        · rw [List.pairwise_map]
          refine List.Pairwise.sublist (List.take_sublist _ _) ?_
          exact List.sorted_insertionSort scoreGE _
        · rw [List.length_map, List.length_take]
          exact min_le_left _ _
  · intro env store request vector cfg he hl
    simp [find_matches, qdrantSearch, he, hl, List.insertionSort]
  · intro c t
    rfl

theorem find_matches_sorted_limited_empty_witness :
    ((([] : List (String × Int))).Pairwise (fun a b => b.2 ≤ a.2) ∧
      (([] : List (String × Int))).length ≤ (⟨"jobs", "golang", 10⟩ : MatchRequest).limit) ∧
    find_matches encodeOkEnv jobsStore ⟨"jobs", "golang", 10⟩ = .ok200 [] ∧
    ({ collection := "jobs", textContent := "golang" } : MatchRequest).limit = 10 :=
  ⟨find_matches_sorted_limited_empty.1 encodeOkEnv jobsStore ⟨"jobs", "golang", 10⟩ [] rfl,
   find_matches_sorted_limited_empty.2.1 encodeOkEnv jobsStore ⟨"jobs", "golang", 10⟩
     [1, 0, 0] ⟨384, Distance.COSINE⟩ rfl rfl,
   find_matches_sorted_limited_empty.2.2 "jobs" "golang"⟩

end Demo
